import Mathlib

/-!
Shallow embedding of the incremental fetch-merge-persist pipeline of
`datautils.py` (festbotutils): the merge in `save_data_to_dataframe`, the
query construction in `fetch_data_from_db`, the windowing helpers
`calculate_next_timestamp` / `get_buffer_time`, the orchestrator
`save_data_from_db_to_df`, and the multi-series loader
`load_dataframes_from_input_file`.

Rows of a snapshot are modelled as records with a timestamp field `t`
(epoch seconds, as an integer) and one value field `v`; a table is a list
of rows in stored order.  Backend I/O (parquet read/write, the database
pool) is modelled by explicit oracles; a Python exception is an element of
`PyExc`, and a function that can raise returns `Except PyExc _`.
-/

namespace FestbotUtils

/-- A snapshot row: timestamp column `t` and a value column. -/
structure Row where
  t : Int
  v : Int
deriving DecidableEq, Repr

/-- A columnar table, as its list of rows in stored order. -/
abbrev Table := List Row

/-- A Python exception, as far as the control flow of `datautils.py`
distinguishes them: `FileNotFoundError`, `UnboundLocalError` (raised when
`df` is referenced without having been assigned), and everything else. -/
inductive PyExc where
  | fileNotFound
  | unboundLocal
  | other (msg : String)
deriving DecidableEq, Repr

/-- ASCII lower-casing of one character, as Python `str.lower` acts on the
ASCII symbols this pipeline handles. -/
def lowerChar (c : Char) : Char :=
  if 65 ≤ c.toNat ∧ c.toNat ≤ 90 then Char.ofNat (c.toNat + 32) else c

/-- Python `symbol.lower()` on ASCII strings. -/
def lowerStr (s : String) : String := String.mk (s.data.map lowerChar)

/-- Python truthiness of an optional integer (`if since:`):
`None` and `0` are falsy, every other integer is truthy. -/
def pyTruthy : Option Int → Bool
  | none => false
  | some s => s != 0

/-- Python truthiness of an optional string (`if bucket_name:`):
`None` and the empty string are falsy. -/
def pyTruthyStr : Option String → Bool
  | none => false
  | some s => s != ""

/-- Rendering of an optional value inside a Python f-string:
`None` renders as the text None. -/
def optStr : Option String → String
  | none => "None"
  | some s => s

/-- Rendering of an optional integer inside a Python f-string. -/
def optIntStr : Option Int → String
  | none => "None"
  | some s => toString s

/-- The SQL text built by `fetch_data_from_db` (datautils.py lines 79-82):
base `SELECT`, a `WHERE time > to_timestamp(...)` clause appended only when
`since` is truthy, then `ORDER BY time`. -/
def build_query (table_name : String) (since : Option Int) : String :=
  let query := "SELECT * FROM " ++ table_name
  let query := if pyTruthy since then
      query ++ " WHERE time > to_timestamp(" ++ optIntStr since ++ ")"
    else query
  query ++ " ORDER BY time"

/-- Model of `fetch_data_from_db` (datautils.py lines 77-95): build the query, run it
against the pool (modelled as an oracle from the query text to either rows
or a raised exception); any exception is caught, logged and degraded to the
empty list. -/
def fetch_data_from_db (db : String → Except PyExc Table) (table_name : String)
    (since : Option Int) : Table :=
  match db (build_query table_name since) with
  | Except.ok rows => rows
  | Except.error _ => []

/-- Pandas `drop_duplicates(subset='t')` (default `keep='first'`), with an
accumulator of timestamps already seen: a row is kept iff its `t` has not
occurred before it. -/
def dedupByT : Table → List Int → Table
  | [], _ => []
  | r :: rs, seen =>
    if r.t ∈ seen then dedupByT rs seen else r :: dedupByT rs (r.t :: seen)

/-- Pandas drop_duplicates by column t on a table: keep the first row per
timestamp, preserving order. -/
def drop_duplicates_t (tbl : Table) : Table := dedupByT tbl []

/-- Largest timestamp of a table (`df['time'].max()`); only meaningful for
non-empty tables. -/
def maxTime : Table → Int
  | [] => 0
  | r :: rs => rs.foldl (fun m x => max m x.t) r.t

/-- Model of `calculate_next_timestamp` (datautils.py lines 176-184): last timestamp
plus the interval length looked up from the static table, an unrecognized
interval mapping to 0. -/
def calculate_next_timestamp (last_unix_timestamp : Int) (interval : String) : Int :=
  last_unix_timestamp +
    (if interval = "24h" then 86400
     else if interval = "1h" then 3600
     else if interval = "10m" then 600
     else 0)

/-- Model of `get_buffer_time` (datautils.py lines 186-194): 360 seconds for each of
the three recognized resolutions, 0 otherwise. -/
def get_buffer_time (interval : String) : Int :=
  if interval = "24h" then 360
  else if interval = "1h" then 360
  else if interval = "10m" then 360
  else 0

/-- The file key computed by `save_data_from_db_to_df` (datautils.py line 99):
the READ location of a snapshot.  For s3 it carries the `data/raw/` prefix
inside the bucket; otherwise it is the local relative path. -/
def sync_file_key (storage_type : String) (bucket_name : Option String)
    (symbol resolution endpoint_name : String) : String :=
  if storage_type == "s3" then
    "s3://" ++ optStr bucket_name ++ "/data/raw/" ++ lowerStr symbol ++ "_" ++
      resolution ++ "_" ++ endpoint_name ++ ".parquet"
  else
    "data/raw/" ++ lowerStr symbol ++ "_" ++ resolution ++ "_" ++
      endpoint_name ++ ".parquet"

/-- The file key computed by `save_data_to_dataframe` (datautils.py line 165):
the WRITE location of a snapshot, at the bucket root with no `data/raw/`
prefix. -/
def save_file_key (bucket_name : Option String)
    (symbol interval endpoint_name : String) : String :=
  "s3://" ++ optStr bucket_name ++ "/" ++ lowerStr symbol ++ "_" ++ interval ++
    "_" ++ endpoint_name ++ ".parquet"

/-- The storage backend, as oracles: reading a parquet file (which may raise,
in particular `FileNotFoundError` for a missing s3 key), `os.path.exists`,
and writing a parquet file (which may raise). -/
structure Backend where
  read_parquet : String → Except PyExc Table
  path_exists : String → Bool
  write_parquet : String → Table → Except PyExc Unit

/-- The merge of `save_data_to_dataframe` (datautils.py lines 157-162):
if an existing snapshot was passed and is non-empty, concatenate old then
new and drop duplicate timestamps keeping the first occurrence; otherwise
the new rows alone. -/
def merge_tables (existing_df : Option Table) (new_df : Table) : Table :=
  match existing_df with
  | some ex => if ex.isEmpty then new_df else drop_duplicates_t (ex ++ new_df)
  | none => new_df

/-- Result of `save_data_to_dataframe`: the merged table it built, and the
write it performed (key and content), if any. -/
structure SaveResult where
  merged : Table
  written : Option (String × Table)
deriving DecidableEq, Repr

/-- Model of `save_data_to_dataframe` (datautils.py lines 139-174): build the merged
table, then write it to the s3 key only when `storage_type == 's3'` and the
bucket name is truthy; a write error is caught and logged (no write is
recorded); any other storage type performs no write at all. -/
def save_data_to_dataframe (symbol interval endpoint_name : String) (data : Table)
    (existing_df : Option Table) (storage_type : String) (bucket_name : Option String)
    (be : Backend) : SaveResult :=
  let df := merge_tables existing_df data
  { merged := df,
    written :=
      if storage_type == "s3" && pyTruthyStr bucket_name then
        match be.write_parquet (save_file_key bucket_name symbol interval endpoint_name) df with
        | Except.ok _ => some (save_file_key bucket_name symbol interval endpoint_name, df)
        | Except.error _ => none
      else none }

/-- The body of the first `try` of `save_data_from_db_to_df` (datautils.py
lines 102-112), before its `except` clauses: read the snapshot (s3 branch
when `storage_type == 's3' and bucket_name`, else the local branch guarded
by `os.path.exists`), then evaluate `df.empty`.  When neither branch bound
`df`, the reference to `df.empty` raises `UnboundLocalError`.  On success it
yields the bound `df` (if any) and the computed `since`. -/
def snapshot_read_body (be : Backend) (storage_type : String)
    (bucket_name : Option String) (file_key resolution : String) :
    Except PyExc (Option Table × Option Int) :=
  let dfRead : Except PyExc (Option Table) :=
    if storage_type == "s3" && pyTruthyStr bucket_name then
      match be.read_parquet file_key with
      | Except.ok tb => Except.ok (some tb)
      | Except.error e => Except.error e
    else if be.path_exists file_key then
      match be.read_parquet file_key with
      | Except.ok tb => Except.ok (some tb)
      | Except.error e => Except.error e
    else Except.ok none
  match dfRead with
  | Except.error e => Except.error e
  | Except.ok none => Except.error PyExc.unboundLocal
  | Except.ok (some df) =>
    if df.isEmpty then Except.ok (some df, none)
    else Except.ok (some df,
      some (calculate_next_timestamp (maxTime df) resolution + get_buffer_time resolution))

/-- The first `try` of `save_data_from_db_to_df` with its handlers
(datautils.py lines 102-118): `FileNotFoundError` is caught with a warning
and execution continues with `df` unbound and `since = None`; every other
exception is logged and re-raised. -/
def snapshot_read_phase (be : Backend) (storage_type : String)
    (bucket_name : Option String) (file_key resolution : String) :
    Except PyExc (Option Table × Option Int) :=
  match snapshot_read_body be storage_type bucket_name file_key resolution with
  | Except.error PyExc.fileNotFound => Except.ok (none, none)
  | Except.error e => Except.error e
  | Except.ok r => Except.ok r

/-- Observable outcome of one `save_data_from_db_to_df` call: the fetch
cutoff it used and the write it performed, if any. -/
structure SyncOutcome where
  since : Option Int
  written : Option (String × Table)
deriving DecidableEq, Repr

/-- Model of `save_data_from_db_to_df` (datautils.py lines 97-126): derive the table
name and file key, run the snapshot-read phase (whose non-not-found
exceptions propagate), then fetch; when the fetch result is non-empty, call
`save_data_to_dataframe` with the bound snapshot (`df if 'df' in locals()
else None`); when it is empty, do nothing. -/
def save_data_from_db_to_df (symbol resolution endpoint_name : String)
    (db : String → Except PyExc Table) (storage_type : String)
    (bucket_name : Option String) (be : Backend) : Except PyExc SyncOutcome :=
  match snapshot_read_phase be storage_type bucket_name
      (sync_file_key storage_type bucket_name symbol resolution endpoint_name)
      resolution with
  | Except.error e => Except.error e
  | Except.ok (dfOpt, since) =>
    let data := fetch_data_from_db db
      (lowerStr symbol ++ "_" ++ resolution ++ "_" ++ endpoint_name) since
    if data.isEmpty then
      Except.ok (SyncOutcome.mk since none)
    else
      Except.ok (SyncOutcome.mk since
        (save_data_to_dataframe symbol resolution endpoint_name data
          dfOpt storage_type bucket_name be).written)

/-- Apply a recorded write to a snapshot store. -/
def apply_write : Option (String × Table) → (String → Option Table) →
    String → Option Table
  | none, st => st
  | some kt, st => fun q => if q = kt.1 then some kt.2 else st q

/-- The state of the snapshot store after a `save_data_from_db_to_df` call:
its recorded write applied, or unchanged if the call raised. -/
def backend_after (res : Except PyExc SyncOutcome)
    (store : String → Option Table) : String → Option Table :=
  match res with
  | Except.ok out => apply_write out.written store
  | Except.error _ => store

/-- An asset entry of the declarative configuration (`{'symbol': ...}`). -/
structure Asset where
  symbol : String
deriving DecidableEq, Repr

/-- An endpoint entry of the declarative configuration. -/
structure Endpoint where
  path : String
  assets : List Asset
  resolutions : List String
deriving DecidableEq, Repr

/-- Characters of the final path segment: the suffix after the last `/`. -/
def lastSegAux : List Char → List Char → List Char
  | [], acc => acc.reverse
  | c :: cs, acc => if c = '/' then lastSegAux cs [] else lastSegAux cs (c :: acc)

/-- Python path.split slash, last element: the final path segment, the metric name. -/
def lastSegment (p : String) : String := String.mk (lastSegAux p.data [])

/-- One loop body of `load_dataframes_from_input_file` (datautils.py lines
20-32): derive the metric name and file path; if the file exists, read it,
deduplicate by timestamp keeping the first occurrence, and assign it into
the dictionary under the metric name (overwriting any previous entry);
otherwise leave the dictionary unchanged. -/
def load_one (store : String → Option Table) (acc : String → Option Table)
    (path symbol resolution : String) : String → Option Table :=
  match store ("data/raw/" ++ lowerStr symbol ++ "_" ++ resolution ++ "_" ++
      lastSegment path ++ ".parquet") with
  | some df => fun q => if q = lastSegment path then some (drop_duplicates_t df) else acc q
  | none => acc

/-- Model of `load_dataframes_from_input_file` (datautils.py lines 12-35): iterate
endpoints, then assets, then resolutions, loading each existing snapshot
into the dictionary keyed by metric name.  The local filesystem is modelled
by the `store` oracle. -/
def load_dataframes_from_input_file (config : List Endpoint)
    (store : String → Option Table) : String → Option Table :=
  config.foldl (fun acc ep =>
    ep.assets.foldl (fun acc2 a =>
      ep.resolutions.foldl (fun acc3 r => load_one store acc3 ep.path a.symbol r) acc2)
      acc) (fun _ => none)

/-- A backend whose snapshot read succeeds with one row `(t=100, v=1)` and
whose writes succeed. -/
def beS3Has : Backend :=
  { read_parquet := fun _ => Except.ok [Row.mk 100 1],
    path_exists := fun _ => true,
    write_parquet := fun _ _ => Except.ok () }

/-- A backend with no snapshot anywhere: reads raise `FileNotFoundError`,
`os.path.exists` is false, writes succeed. -/
def beMissing : Backend :=
  { read_parquet := fun _ => Except.error PyExc.fileNotFound,
    path_exists := fun _ => false,
    write_parquet := fun _ _ => Except.ok () }

/-- A backend whose snapshot read raises a credentials (non-not-found)
error. -/
def beCreds : Backend :=
  { read_parquet := fun _ => Except.error (PyExc.other "creds"),
    path_exists := fun _ => false,
    write_parquet := fun _ _ => Except.ok () }

/-- A database pool returning two rows for every query. -/
def dbRows : String → Except PyExc Table :=
  fun _ => Except.ok [Row.mk 100 2, Row.mk 200 3]

/-- A database pool returning zero rows for every query. -/
def dbEmptyOk : String → Except PyExc Table := fun _ => Except.ok []

/-- A database pool raising a connectivity error on every query. -/
def dbDown : String → Except PyExc Table :=
  fun _ => Except.error (PyExc.other "down")

/-- A snapshot store holding distinct tables for assets `A` and `B` of the
shared metric `m` at resolution `1h`. -/
def storeAB : String → Option Table := fun k =>
  if k = "data/raw/a_1h_m.parquet" then some [Row.mk 1 1]
  else if k = "data/raw/b_1h_m.parquet" then some [Row.mk 2 2]
  else none

/-- One declared (path, asset symbol, resolution) combination, in the
loader's iteration order. -/
structure Combo where
  path : String
  symbol : String
  resolution : String
deriving DecidableEq, Repr

/-- The loader's iteration order flattened: endpoints outermost, then
assets, then resolutions. -/
def combos (config : List Endpoint) : List Combo :=
  config.flatMap (fun ep =>
    ep.assets.flatMap (fun a =>
      ep.resolutions.map (fun r => Combo.mk ep.path a.symbol r)))

/-- The snapshot file path the loader derives for one combination. -/
def combo_file_path (c : Combo) : String :=
  "data/raw/" ++ lowerStr c.symbol ++ "_" ++ c.resolution ++ "_" ++
    lastSegment c.path ++ ".parquet"

/-- The loader's loop body folded over an explicit combination list. -/
def load_combos (store : String → Option Table) (cs : List Combo)
    (acc : String → Option Table) : String → Option Table :=
  cs.foldl (fun a c => load_one store a c.path c.symbol c.resolution) acc

/-- Reference definition following the amended claim's words: the stored
table of the LAST combination in iteration order whose metric name is `k`
and whose snapshot exists, if any. -/
def last_existing_snapshot (store : String → Option Table) (k : String) :
    List Combo → Option Table
  | [] => none
  | c :: cs =>
    match last_existing_snapshot store k cs with
    | some tb => some tb
    | none => if lastSegment c.path = k then store (combo_file_path c) else none

/-- A three-asset configuration whose assets `A`, `B`, `C` all share the
metric `m` at resolution `1h`. -/
def cfgThree : List Endpoint :=
  [Endpoint.mk "x/m" [Asset.mk "A", Asset.mk "B", Asset.mk "C"] ["1h"]]

/-- A snapshot store holding tables for assets `a` and `b` of metric `m`
but none for `c`: the last combination with an existing snapshot is `B`. -/
def storeTwoOfThree : String → Option Table := fun k =>
  if k = "data/raw/a_1h_m.parquet" then some [Row.mk 1 1]
  else if k = "data/raw/b_1h_m.parquet" then some [Row.mk 2 2]
  else none

/- Supporting lemmas about keep-first deduplication. -/

/-- Folding the loader body over an appended combination list processes the
left part first. -/
theorem load_combos_append (store : String → Option Table)
    (cs1 cs2 : List Combo) (acc : String → Option Table) :
    load_combos store (cs1 ++ cs2) acc
      = load_combos store cs2 (load_combos store cs1 acc) := by
  simp [load_combos, List.foldl_append]

/-- The resolutions loop of one (path, asset) pair is the fold over its
mapped combinations. -/
theorem load_combos_res (store : String → Option Table) (path sym : String)
    (ress : List String) (acc : String → Option Table) :
    ress.foldl (fun a r => load_one store a path sym r) acc
      = load_combos store (ress.map (fun r => Combo.mk path sym r)) acc := by
  simp [load_combos, List.foldl_map]

/-- The assets loop of one endpoint is the fold over its flattened
combinations. -/
theorem load_combos_assets (store : String → Option Table) (path : String)
    (ress : List String) :
    ∀ (assets : List Asset) (acc : String → Option Table),
      assets.foldl (fun acc2 a =>
          ress.foldl (fun acc3 r => load_one store acc3 path a.symbol r) acc2) acc
        = load_combos store
            (assets.flatMap (fun a => ress.map (fun r => Combo.mk path a.symbol r))) acc := by
  intro assets
  induction assets with
  | nil => intro acc; rfl
  | cons a as ih =>
    intro acc
    rw [List.foldl_cons, ih, List.flatMap_cons, load_combos_append,
      ← load_combos_res]

/-- The loader's triple-nested loop equals the fold over the flattened
combination list. -/
theorem loader_flatten (store : String → Option Table) :
    ∀ (config : List Endpoint) (acc : String → Option Table),
      config.foldl (fun acc ep =>
          ep.assets.foldl (fun acc2 a =>
            ep.resolutions.foldl (fun acc3 r => load_one store acc3 ep.path a.symbol r) acc2)
            acc) acc
        = load_combos store (combos config) acc := by
  intro config
  induction config with
  | nil => intro acc; rfl
  | cons ep eps ih =>
    intro acc
    have hc : combos (ep :: eps)
        = (ep.assets.flatMap fun a =>
            ep.resolutions.map fun r => Combo.mk ep.path a.symbol r) ++ combos eps := by
      simp [combos]
    rw [List.foldl_cons, ih, hc, load_combos_append, ← load_combos_assets]

/-- Folding the loader body over any combination list resolves a key to the
last combination with an existing snapshot for that key, falling back to
the accumulator. -/
theorem load_combos_eq_last (store : String → Option Table) (k : String) :
    ∀ (cs : List Combo) (acc : String → Option Table),
      load_combos store cs acc k
        = match last_existing_snapshot store k cs with
          | some tb => some (drop_duplicates_t tb)
          | none => acc k := by
  intro cs
  induction cs with
  | nil => intro acc; rfl
  | cons c cs ih =>
    intro acc
    have h1 : load_combos store (c :: cs) acc
        = load_combos store cs (load_one store acc c.path c.symbol c.resolution) := rfl
    rw [h1, ih]
    cases hlast : last_existing_snapshot store k cs with
    | some tb => simp [last_existing_snapshot, hlast]
    | none =>
      simp only [last_existing_snapshot, hlast]
      by_cases hk : lastSegment c.path = k
      · rw [if_pos hk]
        simp only [load_one, combo_file_path]
        cases hst : store ("data/raw/" ++ lowerStr c.symbol ++ "_" ++
            c.resolution ++ "_" ++ lastSegment c.path ++ ".parquet") with
        | some df => simp [hk]
        | none => rfl
      · rw [if_neg hk]
        simp only [load_one, combo_file_path]
        cases hst : store ("data/raw/" ++ lowerStr c.symbol ++ "_" ++
            c.resolution ++ "_" ++ lastSegment c.path ++ ".parquet") with
        | some df =>
          have hk2 : ¬(k = lastSegment c.path) := fun he => hk he.symm
          simp [hk2]
        | none => rfl

/-- Counterexample to claim C2 as stated: an exception raised during the
snapshot read (step 1) that is not a `FileNotFoundError` — here a
credentials error on the object store — propagates out of
`save_data_from_db_to_df` instead of being swallowed. -/
theorem sync_propagates_read_error_cx :
    save_data_from_db_to_df "BTC" "1h" "price" dbRows "s3" (some "b") beCreds
      = Except.error (PyExc.other "creds") := rfl

/-- Claim C2 (amended): `save_data_from_db_to_df` raises exactly the
exceptions its snapshot-read/window phase raises (that phase catches only
`FileNotFoundError` and re-raises everything else); exceptions arising in
the fetch, merge and write steps never propagate. -/
theorem sync_raises_iff_read_phase_raises
    (symbol resolution ep : String) (db : String → Except PyExc Table)
    (st : String) (bk : Option String) (be : Backend) (e : PyExc) :
    save_data_from_db_to_df symbol resolution ep db st bk be = Except.error e ↔
      snapshot_read_phase be st bk
          (sync_file_key st bk symbol resolution ep) resolution
        = Except.error e := by
  unfold save_data_from_db_to_df
  cases h : snapshot_read_phase be st bk
      (sync_file_key st bk symbol resolution ep) resolution with
  | error e0 => simp
  | ok r =>
    obtain ⟨dfOpt, since⟩ := r
    by_cases hd : (fetch_data_from_db db
        (lowerStr symbol ++ "_" ++ resolution ++ "_" ++ ep) since).isEmpty
    <;> simp [hd]

/-- Witness for the amended C2 at a concrete credentials failure. -/
theorem sync_raises_iff_read_phase_raises_witness :
    (save_data_from_db_to_df "BTC" "1h" "price" dbRows "s3" (some "b") beCreds
        = Except.error (PyExc.other "creds") ↔
      snapshot_read_phase beCreds "s3" (some "b")
          (sync_file_key "s3" (some "b") "BTC" "1h" "price") "1h"
        = Except.error (PyExc.other "creds")) :=
  sync_raises_iff_read_phase_raises "BTC" "1h" "price" dbRows "s3" (some "b")
    beCreds (PyExc.other "creds")

/-- Claim C3, evaluated at the failing input: with local storage and no
snapshot file, the reference to the never-assigned `df` raises
`UnboundLocalError`, which the generic handler re-raises — the call aborts
before any fetch, instead of fetching the full history. -/
theorem local_missing_snapshot_raises :
    save_data_from_db_to_df "BTC" "1h" "price" dbRows "local" none beMissing
      = Except.error PyExc.unboundLocal := rfl

/-- Counterexample to claim C4: for the object-store backend the snapshot
READ key carries the `data/raw/` prefix while the WRITE key is at the
bucket root, so the two locations differ for the same series identity. -/
theorem s3_read_write_keys_differ_cx :
    sync_file_key "s3" (some "bkt") "BTC" "1h" "price"
      = "s3://bkt/data/raw/btc_1h_price.parquet"
    ∧ save_file_key (some "bkt") "BTC" "1h" "price"
      = "s3://bkt/btc_1h_price.parquet"
    ∧ sync_file_key "s3" (some "bkt") "BTC" "1h" "price"
      ≠ save_file_key (some "bkt") "BTC" "1h" "price" := by
  refine ⟨by decide, by decide, by decide⟩

/-- Claim C4 (amended): both key derivations are deterministic functions of
the series identity, but for every identity the read key is exactly nine
characters (the `data/raw/` prefix) longer than the write key, hence the
two locations are never equal: a snapshot written by the engine is not
found by the next sync's read. -/
theorem s3_read_write_keys_differ (bk : Option String)
    (symbol resolution ep : String) :
    (sync_file_key "s3" bk symbol resolution ep).length
      = (save_file_key bk symbol resolution ep).length + 9
    ∧ ((sync_file_key "s3" bk symbol resolution ep)
        == (save_file_key bk symbol resolution ep)) = false := by
  have h1 : sync_file_key "s3" bk symbol resolution ep
      = "s3://" ++ optStr bk ++ "/data/raw/" ++ lowerStr symbol ++ "_" ++
        resolution ++ "_" ++ ep ++ ".parquet" := rfl
  have h2 : save_file_key bk symbol resolution ep
      = "s3://" ++ optStr bk ++ "/" ++ lowerStr symbol ++ "_" ++ resolution ++
        "_" ++ ep ++ ".parquet" := rfl
  have hlen : (sync_file_key "s3" bk symbol resolution ep).length
      = (save_file_key bk symbol resolution ep).length + 9 := by
    rw [h1, h2]
    simp only [String.length_append]
    have hA : ("/data/raw/" : String).length = 10 := rfl
    have hB : ("/" : String).length = 1 := rfl
    rw [hA, hB]
    omega
  refine ⟨hlen, ?_⟩
  rw [beq_eq_false_iff_ne]
  intro heq
  have hc := congrArg String.length heq
  omega

/-- Counterexample to claim C5: two assets sharing metric `m` both have
snapshots, yet the loader's mapping holds only the second table — the
entries are overwritten, not concatenated. -/
theorem loader_overwrites_cx :
    load_dataframes_from_input_file
        [Endpoint.mk "x/m" [Asset.mk "A", Asset.mk "B"] ["1h"]] storeAB "m"
      = some [Row.mk 2 2]
    ∧ (some [Row.mk 2 2] : Option Table)
      ≠ some ([Row.mk 1 1] ++ [Row.mk 2 2]) := by
  refine ⟨by decide, by decide⟩

/-- Claim C5 (amended): for every declared configuration, every snapshot
store and every key, the loader's returned mapping holds under that key the
keep-first-deduplicated table of the LAST combination in iteration order
(endpoints, then assets, then resolutions) whose metric name is that key
and whose snapshot exists — each later combination overwrites the earlier
one's entry, and a combination without a snapshot leaves the entry in
place; tables are never concatenated. -/
theorem loader_last_combination_wins (config : List Endpoint)
    (store : String → Option Table) (k : String) :
    load_dataframes_from_input_file config store k
      = (last_existing_snapshot store k (combos config)).map drop_duplicates_t := by
  have h1 : load_dataframes_from_input_file config store
      = load_combos store (combos config) (fun _ => none) :=
    loader_flatten store config (fun _ => none)
  rw [h1, load_combos_eq_last store k (combos config) (fun _ => none)]
  cases last_existing_snapshot store k (combos config) with
  | none => rfl
  | some tb => rfl

/-- Witness for the amended C5: three assets share metric `m`, the last
one has no snapshot, so the second asset's (deduplicated) table is the
entry — later existing snapshots overwrite earlier ones and a missing last
snapshot leaves the previous entry in place. -/
theorem loader_last_combination_wins_witness :
    load_dataframes_from_input_file cfgThree storeTwoOfThree "m"
      = some (drop_duplicates_t [Row.mk 2 2]) :=
  (loader_last_combination_wins cfgThree storeTwoOfThree "m").trans (by decide)

/-- Counterexample to claim C6 as stated: `since = 0` is provided (not
None) yet the built query has no WHERE clause, because the filter is
applied only when `since` is truthy. -/
theorem fetch_query_zero_cx :
    build_query "tbl" (some 0) = "SELECT * FROM tbl ORDER BY time"
    ∧ build_query "tbl" (some 0)
      ≠ "SELECT * FROM tbl WHERE time > to_timestamp(0) ORDER BY time" := by
  refine ⟨by decide, by decide⟩

/-- Claim C6 (amended): for every provided NON-ZERO `since`, the issued
query is exactly `SELECT * FROM {table} WHERE time > to_timestamp({since})
ORDER BY time`; with `since` absent the WHERE clause is omitted. -/
theorem fetch_query_shape (table_name : String) :
    (∀ s : Int, s ≠ 0 →
      build_query table_name (some s)
        = "SELECT * FROM " ++ table_name ++ " WHERE time > to_timestamp(" ++
          toString s ++ ")" ++ " ORDER BY time")
    ∧ build_query table_name none
      = "SELECT * FROM " ++ table_name ++ " ORDER BY time" := by
  constructor
  · intro s hs
    have ht : pyTruthy (some s) = true := by simp [pyTruthy, hs]
    simp [build_query, ht, optIntStr]
  · rfl

/-- Witness for the amended C6 at the spec's cutoff 4600. -/
theorem fetch_query_shape_witness :
    (4600 : Int) ≠ 0
    ∧ build_query "btc_1h_price" (some 4600)
      = "SELECT * FROM " ++ "btc_1h_price" ++ " WHERE time > to_timestamp(" ++
        toString (4600 : Int) ++ ")" ++ " ORDER BY time" :=
  ⟨by decide, (fetch_query_shape "btc_1h_price").1 4600 (by decide)⟩

/-- Claim C7: a database error during a fetch is caught internally and
degraded to the empty list, indistinguishable from a legitimately empty
result; being a total function, `fetch_data_from_db` never raises. -/
theorem fetch_failure_degrades_to_empty
    (db dbOk : String → Except PyExc Table) (table_name : String)
    (s : Option Int) (e : PyExc)
    (herr : db (build_query table_name s) = Except.error e)
    (hok : dbOk (build_query table_name s) = Except.ok ([] : Table)) :
    fetch_data_from_db db table_name s = []
    ∧ fetch_data_from_db db table_name s = fetch_data_from_db dbOk table_name s := by
  unfold fetch_data_from_db
  rw [herr, hok]
  exact ⟨rfl, rfl⟩

/-- Witness for C7: a concrete connectivity failure yields the empty
result. -/
theorem fetch_failure_degrades_to_empty_witness :
    dbDown (build_query "tbl" none) = Except.error (PyExc.other "down")
    ∧ dbEmptyOk (build_query "tbl" none) = Except.ok ([] : Table)
    ∧ fetch_data_from_db dbDown "tbl" none = [] :=
  ⟨rfl, rfl,
   (fetch_failure_degrades_to_empty dbDown dbEmptyOk "tbl" none
     (PyExc.other "down") rfl rfl).1⟩

/-- Claim C8: with an existing snapshot and a fetch returning zero rows,
the sync performs no write — the snapshot store after the call equals the
store before it. -/
theorem empty_fetch_is_noop (symbol resolution ep : String)
    (db : String → Except PyExc Table) (st : String) (bk : Option String)
    (be : Backend) (df : Table) (s : Option Int)
    (hread : snapshot_read_phase be st bk
        (sync_file_key st bk symbol resolution ep) resolution
      = Except.ok (some df, s))
    (hfetch : fetch_data_from_db db
        (lowerStr symbol ++ "_" ++ resolution ++ "_" ++ ep) s = []) :
    save_data_from_db_to_df symbol resolution ep db st bk be
      = Except.ok (SyncOutcome.mk s none)
    ∧ ∀ store : String → Option Table,
        backend_after (save_data_from_db_to_df symbol resolution ep db st bk be) store
          = store := by
  have hmain : save_data_from_db_to_df symbol resolution ep db st bk be
      = Except.ok (SyncOutcome.mk s none) := by
    unfold save_data_from_db_to_df
    rw [hread]
    simp [hfetch]
  refine ⟨hmain, fun store => ?_⟩
  rw [hmain]
  rfl

/-- Witness for C8: a snapshot with one row, a fetch returning nothing, no
write recorded. -/
theorem empty_fetch_is_noop_witness :
    snapshot_read_phase beS3Has "s3" (some "b")
        (sync_file_key "s3" (some "b") "BTC" "1h" "price") "1h"
      = Except.ok (some [Row.mk 100 1], some 4060)
    ∧ save_data_from_db_to_df "BTC" "1h" "price" dbEmptyOk "s3" (some "b") beS3Has
      = Except.ok (SyncOutcome.mk (some 4060) none) :=
  ⟨rfl,
   (empty_fetch_is_noop "BTC" "1h" "price" dbEmptyOk "s3" (some "b") beS3Has
     [Row.mk 100 1] (some 4060) rfl rfl).1⟩

/-- Claim C9: the next fetch timestamp is the last timestamp plus the
interval length (10m=600, 1h=3600, 24h=86400, unrecognized=0), the buffer
is 360 seconds for every recognized resolution, and in particular
`calculate_next_timestamp 1000 "1h" = 4600` with effective cutoff 4960. -/
theorem windowing_policy_correct :
    (∀ t : Int, calculate_next_timestamp t "10m" = t + 600
      ∧ calculate_next_timestamp t "1h" = t + 3600
      ∧ calculate_next_timestamp t "24h" = t + 86400)
    ∧ (∀ (t : Int) (r : String), r ≠ "10m" → r ≠ "1h" → r ≠ "24h" →
        calculate_next_timestamp t r = t)
    ∧ get_buffer_time "10m" = 360 ∧ get_buffer_time "1h" = 360
    ∧ get_buffer_time "24h" = 360
    ∧ calculate_next_timestamp 1000 "1h" = 4600
    ∧ calculate_next_timestamp 1000 "1h" + get_buffer_time "1h" = 4960 := by
  refine ⟨fun t => ⟨rfl, rfl, rfl⟩, ?_, rfl, rfl, rfl, rfl, rfl⟩
  intro t r h10 h1 h24
  simp [calculate_next_timestamp, h10, h1, h24]

/-- Witness for C9 at an unrecognized resolution. -/
theorem windowing_policy_correct_witness :
    ("7d" : String) ≠ "10m" ∧ ("7d" : String) ≠ "1h" ∧ ("7d" : String) ≠ "24h"
    ∧ calculate_next_timestamp 500 "7d" = 500 :=
  ⟨by decide, by decide, by decide,
   windowing_policy_correct.2.1 500 "7d" (by decide) (by decide) (by decide)⟩

/-- Claim C10: a zero `since` behaves exactly like an absent `since`: the
built query is the unfiltered full-history query, and the fetch result is
identical. -/
theorem zero_since_like_none (table_name : String)
    (db : String → Except PyExc Table) :
    build_query table_name (some 0) = build_query table_name none
    ∧ fetch_data_from_db db table_name (some 0)
      = fetch_data_from_db db table_name none :=
  ⟨rfl, rfl⟩

end FestbotUtils
